import Mathlib

/-!
Shallow embedding of the access-control logic of the Task-Manager backend.

The authorization decisions of the application live in two layers:
the route middleware (backend/middlewares/authorization.js) and the
per-controller checks (backend/controllers/*.js).  Each source function is
translated below under its source name; a unified `evaluate` composes the
middleware configured by the route files with the controller check reached
by that route, exactly as the Express chains do.

Modelling conventions:
* Mongo ObjectIds are opaque and only compared with `.equals`; they are
  modelled as natural numbers (`Ident`).
* A target document is described by its `Scope` record (companyId,
  departmentId, ownerId, assignedUserIds), mirroring the fields the checks
  read.  A `findOne` whose filter includes `company: req.user.company._id`
  succeeds exactly when the target scope's companyId equals the actor's,
  and the controllers then throw their NOT_FOUND error otherwise.
* A middleware that calls `next()` with no error is `none`; one that calls
  `next(new CustomError(...))` is `some reason`.
* The HTTP method and the `operations` configuration array the routes pass
  always agree (post with create, get with read, put/patch with update,
  delete with delete), so the method argument is the same `Operation`.
* Purely data-integrity validations that read database contents beyond the
  target scope (duplicate names, last-SuperAdmin guard, assignee validity)
  are outside the policy decision per the error-handling design and are not
  part of these checks.
-/

namespace TaskManager

/-- Opaque document identifier (Mongo ObjectId); only equality is used. -/
abbrev Ident := Nat

/-- Role strings used by the backend. -/
inductive Role
  | superAdmin
  | admin
  | manager
  | user
deriving DecidableEq

/-- The authenticated caller, as attached to req.user by verifyJWT:
role, company._id, department._id and _id. -/
structure Actor where
  role : Role
  companyId : Ident
  departmentId : Ident
  userId : Ident
deriving DecidableEq

/-- CRUD operations, as derived from the HTTP method by the middleware. -/
inductive Operation
  | create
  | read
  | update
  | delete
deriving DecidableEq

/-- Resource types of the application. -/
inductive ResourceType
  | company
  | department
  | user
  | assignedTask
  | projectTask
  | routineTask
  | taskActivity
  | notification
deriving DecidableEq

/-- The target being acted on, described by the identifier fields the checks
read: its company, its department (for department-scoped resources; for a
Create, the pre-existing department the request names), its owner (target
user id, notification recipient, or activity author performedBy), and the
assignedTo list of an assigned task. -/
structure Scope where
  companyId : Option Ident := none
  departmentId : Option Ident := none
  ownerId : Option Ident := none
  assignedUserIds : Option (List Ident) := none
deriving DecidableEq

/-- Machine-readable error codes raised by the middleware and controllers. -/
inductive Reason
  | AUTHENTICATION_REQUIRED
  | INSUFFICIENT_PERMISSIONS
  | DEPARTMENT_ACCESS_DENIED
  | USER_ACCESS_DENIED
  | TASK_ACCESS_DENIED
  | COMPANY_ACCESS_DENIED
  | NOTIFICATION_ACCESS_DENIED
  | PROJECT_TASK_ACCESS_DENIED
  | TASK_ACTIVITY_ACCESS_DENIED
  | INVALID_DEPARTMENT
  | TASK_NOT_FOUND
  | PROJECT_TASK_NOT_FOUND
  | ROUTINE_TASK_NOT_FOUND
  | USER_NOT_FOUND
  | DEPARTMENT_NOT_FOUND
  | NOTIFICATION_NOT_FOUND
deriving DecidableEq

/-- Outcome of one evaluation: proceed, or reject with an error code. -/
inductive Decision
  | allow
  | deny (reason : Reason)
deriving DecidableEq

/-- Helper from authorization.js: Admin and Manager are the
department-scoped policy class. -/
def hasDepartmentAccess : Role → Bool
  | Role.admin => true
  | Role.manager => true
  | _ => false

/-- Helper from authorization.js. -/
def isSuperAdmin : Role → Bool
  | Role.superAdmin => true
  | _ => false

/-- authorizeCompanyAccess (authorization.js): create, update and delete on
a company require SuperAdmin; read passes for every authenticated role. -/
def authorizeCompanyAccess (operations : List Operation) (user : Option Actor)
    (op : Operation) : Option Reason :=
  match user with
  | none => some Reason.AUTHENTICATION_REQUIRED
  | some u =>
    if Operation.create ∈ operations ∧ op = Operation.create ∧ ¬ isSuperAdmin u.role then
      some Reason.INSUFFICIENT_PERMISSIONS
    else if Operation.update ∈ operations ∧ op = Operation.update ∧ ¬ isSuperAdmin u.role then
      some Reason.INSUFFICIENT_PERMISSIONS
    else if Operation.delete ∈ operations ∧ op = Operation.delete ∧ ¬ isSuperAdmin u.role then
      some Reason.INSUFFICIENT_PERMISSIONS
    else
      none

/-- authorizeDepartmentAccess (authorization.js): SuperAdmin passes; create,
update and delete are SuperAdmin-only; read rejects a department id outside
the caller's own department when one is supplied. -/
def authorizeDepartmentAccess (operations : List Operation) (user : Option Actor)
    (op : Operation) (departmentId : Option Ident) : Option Reason :=
  match user with
  | none => some Reason.AUTHENTICATION_REQUIRED
  | some u =>
    if isSuperAdmin u.role then none
    else if Operation.create ∈ operations ∧ op = Operation.create then
      some Reason.INSUFFICIENT_PERMISSIONS
    else if (Operation.update ∈ operations ∨ Operation.delete ∈ operations) ∧
        (op = Operation.update ∨ op = Operation.delete) then
      some Reason.INSUFFICIENT_PERMISSIONS
    else if Operation.read ∈ operations ∧ op = Operation.read ∧
        departmentId.isSome ∧ departmentId ≠ some u.departmentId then
      some Reason.DEPARTMENT_ACCESS_DENIED
    else
      none

/-- authorizeUserAccess (authorization.js): SuperAdmin passes; create and
delete are SuperAdmin-only; on read an Admin/Manager may only reach a target
user of their own department (the middleware looks the target up by id and
compares departments) and a User only themself; on update every non-SuperAdmin
may only name themself.  targetUserDeptId is the department of the user found
by the User.findById lookup. -/
def authorizeUserAccess (operations : List Operation) (user : Option Actor)
    (op : Operation) (targetUserId : Option Ident)
    (targetUserDeptId : Option Ident) : Option Reason :=
  match user with
  | none => some Reason.AUTHENTICATION_REQUIRED
  | some u =>
    if isSuperAdmin u.role then none
    else if Operation.create ∈ operations ∧ op = Operation.create then
      some Reason.INSUFFICIENT_PERMISSIONS
    else if Operation.delete ∈ operations ∧ op = Operation.delete then
      some Reason.INSUFFICIENT_PERMISSIONS
    else if Operation.read ∈ operations ∧ op = Operation.read then
      if hasDepartmentAccess u.role then
        if targetUserId.isSome ∧ targetUserDeptId ≠ some u.departmentId then
          some Reason.USER_ACCESS_DENIED
        else none
      else
        if targetUserId.isSome ∧ targetUserId ≠ some u.userId then
          some Reason.USER_ACCESS_DENIED
        else none
    else if Operation.update ∈ operations ∧ op = Operation.update then
      if targetUserId = some u.userId then none
      else some Reason.USER_ACCESS_DENIED
    else
      none

/-- authorizeTaskAccess (authorization.js), parameterised by the task type a
route passes: SuperAdmin passes; Users may not create, update or delete
assigned or project tasks and may not read project tasks; Admin/Manager
creates only in their own department; routine-task creation is open to every
role in its own department; the remaining checks are left to controllers. -/
def authorizeTaskAccess (operations : List Operation) (taskType : ResourceType)
    (user : Option Actor) (op : Operation)
    (departmentId : Option Ident) : Option Reason :=
  match user with
  | none => some Reason.AUTHENTICATION_REQUIRED
  | some u =>
    if isSuperAdmin u.role then none
    else if Operation.create ∈ operations ∧ op = Operation.create then
      if taskType = ResourceType.assignedTask ∨ taskType = ResourceType.projectTask then
        if hasDepartmentAccess u.role then
          if departmentId.isSome ∧ departmentId ≠ some u.departmentId then
            some Reason.TASK_ACCESS_DENIED
          else none
        else some Reason.TASK_ACCESS_DENIED
      else if taskType = ResourceType.routineTask then
        if departmentId.isSome ∧ departmentId ≠ some u.departmentId then
          some Reason.TASK_ACCESS_DENIED
        else none
      else none
    else if Operation.read ∈ operations ∧ op = Operation.read then
      if taskType = ResourceType.projectTask ∧ u.role = Role.user then
        some Reason.TASK_ACCESS_DENIED
      else none
    else if Operation.update ∈ operations ∧ op = Operation.update then
      if (taskType = ResourceType.assignedTask ∨ taskType = ResourceType.projectTask) ∧
          ¬ hasDepartmentAccess u.role then
        some Reason.TASK_ACCESS_DENIED
      else none
    else if Operation.delete ∈ operations ∧ op = Operation.delete then
      if (taskType = ResourceType.assignedTask ∨ taskType = ResourceType.projectTask) ∧
          ¬ hasDepartmentAccess u.role then
        some Reason.TASK_ACCESS_DENIED
      else none
    else
      none

/-- authorizeTaskActivityAccess (authorization.js): only the authentication
check; every remaining decision is taken in the controllers. -/
def authorizeTaskActivityAccess (operations : List Operation)
    (user : Option Actor) : Option Reason :=
  match user with
  | none => some Reason.AUTHENTICATION_REQUIRED
  | some _ => none

/-- authorizeNotificationAccess (authorization.js): SuperAdmin passes on
read; create is rejected for every role because notifications are
system-generated; read, update and delete otherwise pass through to the
controller filters. -/
def authorizeNotificationAccess (operations : List Operation) (user : Option Actor)
    (op : Operation) : Option Reason :=
  match user with
  | none => some Reason.AUTHENTICATION_REQUIRED
  | some u =>
    if isSuperAdmin u.role ∧ Operation.read ∈ operations ∧ op = Operation.read then
      none
    else if Operation.create ∈ operations ∧ op = Operation.create then
      some Reason.NOTIFICATION_ACCESS_DENIED
    else
      none

/-- authorizeRoles (authorization.js): generic role gate used by the
system-notification route. -/
def authorizeRoles (allowedRoles : List Role) (user : Option Actor) : Option Reason :=
  match user with
  | none => some Reason.AUTHENTICATION_REQUIRED
  | some u =>
    if u.role ∈ allowedRoles then none
    else some Reason.INSUFFICIENT_PERMISSIONS

/-- getCompany (companyController.js): the caller may only read their own
company; any other id is rejected with COMPANY_ACCESS_DENIED. -/
def getCompany (u : Actor) (s : Scope) : Decision :=
  if s.companyId = some u.companyId then Decision.allow
  else Decision.deny Reason.COMPANY_ACCESS_DENIED

/-- createCompany (companyController.js): onboarding path; it reads no
pre-existing target, so no further per-target check exists after the
SuperAdmin gate of the middleware. -/
def createCompany (u : Actor) (s : Scope) : Decision :=
  Decision.allow

/-- updateCompany (companyController.js): same own-company guard as
getCompany. -/
def updateCompany (u : Actor) (s : Scope) : Decision :=
  if s.companyId = some u.companyId then Decision.allow
  else Decision.deny Reason.COMPANY_ACCESS_DENIED

/-- deleteCompany (companyController.js): same own-company guard as
getCompany. -/
def deleteCompany (u : Actor) (s : Scope) : Decision :=
  if s.companyId = some u.companyId then Decision.allow
  else Decision.deny Reason.COMPANY_ACCESS_DENIED

/-- getDepartment (departmentController.js): non-SuperAdmins may only name
their own department, then the company-filtered findOne must hit. -/
def getDepartment (u : Actor) (s : Scope) : Decision :=
  if ¬ isSuperAdmin u.role ∧ s.departmentId ≠ some u.departmentId then
    Decision.deny Reason.DEPARTMENT_ACCESS_DENIED
  else if s.companyId = some u.companyId then Decision.allow
  else Decision.deny Reason.DEPARTMENT_NOT_FOUND

/-- createDepartment (departmentController.js): reached only by SuperAdmin;
the new department is created in the caller's own company and no
pre-existing target is read. -/
def createDepartment (u : Actor) (s : Scope) : Decision :=
  Decision.allow

/-- updateDepartment (departmentController.js): company-filtered findOne. -/
def updateDepartment (u : Actor) (s : Scope) : Decision :=
  if s.companyId = some u.companyId then Decision.allow
  else Decision.deny Reason.DEPARTMENT_NOT_FOUND

/-- deleteDepartment (departmentController.js): company-filtered findOne. -/
def deleteDepartment (u : Actor) (s : Scope) : Decision :=
  if s.companyId = some u.companyId then Decision.allow
  else Decision.deny Reason.DEPARTMENT_NOT_FOUND

/-- getUser (userController.js): SuperAdmin company-wide; Admin/Manager only
targets of their own department; a User only themself; in every branch the
final company-filtered findOne must hit. -/
def getUser (u : Actor) (s : Scope) : Decision :=
  if isSuperAdmin u.role then
    if s.companyId = some u.companyId then Decision.allow
    else Decision.deny Reason.USER_NOT_FOUND
  else if hasDepartmentAccess u.role then
    if s.departmentId = some u.departmentId then
      if s.companyId = some u.companyId then Decision.allow
      else Decision.deny Reason.USER_NOT_FOUND
    else Decision.deny Reason.USER_ACCESS_DENIED
  else
    if s.ownerId = some u.userId then
      if s.companyId = some u.companyId then Decision.allow
      else Decision.deny Reason.USER_NOT_FOUND
    else Decision.deny Reason.USER_ACCESS_DENIED

/-- createUser (userController.js): reached only by SuperAdmin; the named
department must exist inside the caller's company. -/
def createUser (u : Actor) (s : Scope) : Decision :=
  if s.departmentId.isSome ∧ s.companyId = some u.companyId then Decision.allow
  else Decision.deny Reason.INVALID_DEPARTMENT

/-- updateUser (userController.js): non-SuperAdmins may only update their
own profile; then the company-filtered findOne must hit. -/
def updateUser (u : Actor) (s : Scope) : Decision :=
  if ¬ isSuperAdmin u.role ∧ s.ownerId ≠ some u.userId then
    Decision.deny Reason.USER_ACCESS_DENIED
  else if s.companyId = some u.companyId then Decision.allow
  else Decision.deny Reason.USER_NOT_FOUND

/-- deleteUser (userController.js): reached only by SuperAdmin; the
company-filtered findOne must hit (the last-SuperAdmin guard is a
data-integrity validation on database contents, not a per-target policy
check). -/
def deleteUser (u : Actor) (s : Scope) : Decision :=
  if s.companyId = some u.companyId then Decision.allow
  else Decision.deny Reason.USER_NOT_FOUND

/-- getAssignedTask (assignedTaskController.js): the company-filtered
findOne must hit, then SuperAdmin passes, Admin/Manager need the task in
their department, and a User must appear in assignedTo. -/
def getAssignedTask (u : Actor) (s : Scope) : Decision :=
  if s.companyId = some u.companyId then
    if isSuperAdmin u.role then Decision.allow
    else if hasDepartmentAccess u.role then
      if s.departmentId = some u.departmentId then Decision.allow
      else Decision.deny Reason.TASK_ACCESS_DENIED
    else
      if u.userId ∈ s.assignedUserIds.getD [] then Decision.allow
      else Decision.deny Reason.TASK_ACCESS_DENIED
  else Decision.deny Reason.TASK_NOT_FOUND

/-- createAssignedTask (assignedTaskController.js): the named department
must exist in the caller's company, and a non-SuperAdmin may only create in
their own department. -/
def createAssignedTask (u : Actor) (s : Scope) : Decision :=
  if s.departmentId.isSome ∧ s.companyId = some u.companyId then
    if ¬ isSuperAdmin u.role ∧ s.departmentId ≠ some u.departmentId then
      Decision.deny Reason.DEPARTMENT_ACCESS_DENIED
    else Decision.allow
  else Decision.deny Reason.DEPARTMENT_NOT_FOUND

/-- updateAssignedTask (assignedTaskController.js), authorization part: the
company-filtered findOne must hit, then a non-SuperAdmin needs the task in
their own department. -/
def updateAssignedTask (u : Actor) (s : Scope) : Decision :=
  if s.companyId = some u.companyId then
    if ¬ isSuperAdmin u.role ∧ s.departmentId ≠ some u.departmentId then
      Decision.deny Reason.TASK_ACCESS_DENIED
    else Decision.allow
  else Decision.deny Reason.TASK_NOT_FOUND

/-- deleteAssignedTask (assignedTaskController.js): same shape as the update
authorization. -/
def deleteAssignedTask (u : Actor) (s : Scope) : Decision :=
  if s.companyId = some u.companyId then
    if ¬ isSuperAdmin u.role ∧ s.departmentId ≠ some u.departmentId then
      Decision.deny Reason.TASK_ACCESS_DENIED
    else Decision.allow
  else Decision.deny Reason.TASK_NOT_FOUND

/-- getProjectTask (projectTaskController.js): Users are rejected outright;
the company-filtered findOne must hit; Admin/Manager need their own
department. -/
def getProjectTask (u : Actor) (s : Scope) : Decision :=
  if u.role = Role.user then Decision.deny Reason.PROJECT_TASK_ACCESS_DENIED
  else if s.companyId = some u.companyId then
    if hasDepartmentAccess u.role ∧ s.departmentId ≠ some u.departmentId then
      Decision.deny Reason.PROJECT_TASK_ACCESS_DENIED
    else Decision.allow
  else Decision.deny Reason.PROJECT_TASK_NOT_FOUND

/-- createProjectTask (projectTaskController.js): Users are rejected; the
named department must exist in the caller's company; a non-SuperAdmin may
only create in their own department. -/
def createProjectTask (u : Actor) (s : Scope) : Decision :=
  if u.role = Role.user then Decision.deny Reason.PROJECT_TASK_ACCESS_DENIED
  else if s.departmentId.isSome ∧ s.companyId = some u.companyId then
    if ¬ isSuperAdmin u.role ∧ s.departmentId ≠ some u.departmentId then
      Decision.deny Reason.DEPARTMENT_ACCESS_DENIED
    else Decision.allow
  else Decision.deny Reason.DEPARTMENT_NOT_FOUND

/-- updateProjectTask (projectTaskController.js): same shape as the read
check. -/
def updateProjectTask (u : Actor) (s : Scope) : Decision :=
  if u.role = Role.user then Decision.deny Reason.PROJECT_TASK_ACCESS_DENIED
  else if s.companyId = some u.companyId then
    if hasDepartmentAccess u.role ∧ s.departmentId ≠ some u.departmentId then
      Decision.deny Reason.PROJECT_TASK_ACCESS_DENIED
    else Decision.allow
  else Decision.deny Reason.PROJECT_TASK_NOT_FOUND

/-- deleteProjectTask (projectTaskController.js): same shape as the read
check. -/
def deleteProjectTask (u : Actor) (s : Scope) : Decision :=
  if u.role = Role.user then Decision.deny Reason.PROJECT_TASK_ACCESS_DENIED
  else if s.companyId = some u.companyId then
    if hasDepartmentAccess u.role ∧ s.departmentId ≠ some u.departmentId then
      Decision.deny Reason.PROJECT_TASK_ACCESS_DENIED
    else Decision.allow
  else Decision.deny Reason.PROJECT_TASK_NOT_FOUND

/-- getRoutineTask (routineTaskController.js): the findOne filter contains
the company and, for non-SuperAdmins, also the caller's department, so a
miss on either is reported as not found. -/
def getRoutineTask (u : Actor) (s : Scope) : Decision :=
  if s.companyId = some u.companyId ∧
      (isSuperAdmin u.role ∨ s.departmentId = some u.departmentId) then
    Decision.allow
  else Decision.deny Reason.ROUTINE_TASK_NOT_FOUND

/-- createRoutineTask (routineTaskController.js): the named department must
exist in the caller's company; a non-SuperAdmin may only create in their
own department. -/
def createRoutineTask (u : Actor) (s : Scope) : Decision :=
  if s.departmentId.isSome ∧ s.companyId = some u.companyId then
    if ¬ isSuperAdmin u.role ∧ s.departmentId ≠ some u.departmentId then
      Decision.deny Reason.DEPARTMENT_ACCESS_DENIED
    else Decision.allow
  else Decision.deny Reason.DEPARTMENT_NOT_FOUND

/-- updateRoutineTask (routineTaskController.js): same filtered findOne as
the read path. -/
def updateRoutineTask (u : Actor) (s : Scope) : Decision :=
  if s.companyId = some u.companyId ∧
      (isSuperAdmin u.role ∨ s.departmentId = some u.departmentId) then
    Decision.allow
  else Decision.deny Reason.ROUTINE_TASK_NOT_FOUND

/-- deleteRoutineTask (routineTaskController.js): same filtered findOne as
the read path. -/
def deleteRoutineTask (u : Actor) (s : Scope) : Decision :=
  if s.companyId = some u.companyId ∧
      (isSuperAdmin u.role ∨ s.departmentId = some u.departmentId) then
    Decision.allow
  else Decision.deny Reason.ROUTINE_TASK_NOT_FOUND

/-- getTaskActivity (taskActivityController.js): the findById is not
company-filtered; SuperAdmin is checked against the task's company,
Admin/Manager against the task's department, and a User against the
assignedTo list of the underlying assigned task (absent for other task
kinds, which then denies). -/
def getTaskActivity (u : Actor) (s : Scope) : Decision :=
  if isSuperAdmin u.role then
    if s.companyId = some u.companyId then Decision.allow
    else Decision.deny Reason.TASK_ACTIVITY_ACCESS_DENIED
  else if hasDepartmentAccess u.role then
    if s.departmentId = some u.departmentId then Decision.allow
    else Decision.deny Reason.TASK_ACTIVITY_ACCESS_DENIED
  else
    if u.userId ∈ s.assignedUserIds.getD [] then Decision.allow
    else Decision.deny Reason.TASK_ACTIVITY_ACCESS_DENIED

/-- createTaskActivity (taskActivityController.js): the referenced task is
fetched with the company filter; then SuperAdmin passes, Admin/Manager need
their department and a User must be assigned to the task. -/
def createTaskActivity (u : Actor) (s : Scope) : Decision :=
  if s.companyId = some u.companyId then
    if isSuperAdmin u.role then Decision.allow
    else if hasDepartmentAccess u.role then
      if s.departmentId = some u.departmentId then Decision.allow
      else Decision.deny Reason.TASK_ACCESS_DENIED
    else
      if u.userId ∈ s.assignedUserIds.getD [] then Decision.allow
      else Decision.deny Reason.TASK_ACCESS_DENIED
  else Decision.deny Reason.TASK_NOT_FOUND

/-- updateTaskActivity (taskActivityController.js): like the read check,
with the extra self-authorship requirement (performedBy) for Users. -/
def updateTaskActivity (u : Actor) (s : Scope) : Decision :=
  if isSuperAdmin u.role then
    if s.companyId = some u.companyId then Decision.allow
    else Decision.deny Reason.TASK_ACTIVITY_ACCESS_DENIED
  else if hasDepartmentAccess u.role then
    if s.departmentId = some u.departmentId then Decision.allow
    else Decision.deny Reason.TASK_ACTIVITY_ACCESS_DENIED
  else if s.ownerId ≠ some u.userId then
    Decision.deny Reason.TASK_ACTIVITY_ACCESS_DENIED
  else if u.userId ∈ s.assignedUserIds.getD [] then Decision.allow
  else Decision.deny Reason.TASK_ACTIVITY_ACCESS_DENIED

/-- deleteTaskActivity (taskActivityController.js): same shape as the
update check. -/
def deleteTaskActivity (u : Actor) (s : Scope) : Decision :=
  if isSuperAdmin u.role then
    if s.companyId = some u.companyId then Decision.allow
    else Decision.deny Reason.TASK_ACTIVITY_ACCESS_DENIED
  else if hasDepartmentAccess u.role then
    if s.departmentId = some u.departmentId then Decision.allow
    else Decision.deny Reason.TASK_ACTIVITY_ACCESS_DENIED
  else if s.ownerId ≠ some u.userId then
    Decision.deny Reason.TASK_ACTIVITY_ACCESS_DENIED
  else if u.userId ∈ s.assignedUserIds.getD [] then Decision.allow
  else Decision.deny Reason.TASK_ACTIVITY_ACCESS_DENIED

/-- getNotification (notificationController.js): the findOne filter carries
the company and, for non-SuperAdmins, also user: req.user._id, so only the
recipient (or a SuperAdmin of the company) finds the document. -/
def getNotification (u : Actor) (s : Scope) : Decision :=
  if s.companyId = some u.companyId ∧
      (isSuperAdmin u.role ∨ s.ownerId = some u.userId) then
    Decision.allow
  else Decision.deny Reason.NOTIFICATION_NOT_FOUND

/-- markNotificationAsRead (notificationController.js): same filtered
findOneAndUpdate as the read path. -/
def markNotificationAsRead (u : Actor) (s : Scope) : Decision :=
  if s.companyId = some u.companyId ∧
      (isSuperAdmin u.role ∨ s.ownerId = some u.userId) then
    Decision.allow
  else Decision.deny Reason.NOTIFICATION_NOT_FOUND

/-- deleteNotification (notificationController.js): same filtered
findOneAndDelete as the read path. -/
def deleteNotification (u : Actor) (s : Scope) : Decision :=
  if s.companyId = some u.companyId ∧
      (isSuperAdmin u.role ∨ s.ownerId = some u.userId) then
    Decision.allow
  else Decision.deny Reason.NOTIFICATION_NOT_FOUND

/-- The middleware each route file installs for one operation on one
resource type, fed exactly the operations list the route passes. -/
def routeMiddleware (user : Option Actor) (op : Operation) (rt : ResourceType)
    (s : Scope) : Option Reason :=
  match rt with
  | ResourceType.company => authorizeCompanyAccess [op] user op
  | ResourceType.department => authorizeDepartmentAccess [op] user op s.departmentId
  | ResourceType.user => authorizeUserAccess [op] user op s.ownerId s.departmentId
  | ResourceType.assignedTask => authorizeTaskAccess [op] ResourceType.assignedTask user op s.departmentId
  | ResourceType.projectTask => authorizeTaskAccess [op] ResourceType.projectTask user op s.departmentId
  | ResourceType.routineTask => authorizeTaskAccess [op] ResourceType.routineTask user op s.departmentId
  | ResourceType.taskActivity => authorizeTaskActivityAccess [op] user
  | ResourceType.notification => authorizeNotificationAccess [op] user op

/-- The controller check the route dispatches to for one operation on one
resource type (single-target handlers). -/
def controllerCheck (u : Actor) (op : Operation) (rt : ResourceType) (s : Scope) : Decision :=
  match rt, op with
  | ResourceType.company, Operation.create => createCompany u s
  | ResourceType.company, Operation.read => getCompany u s
  | ResourceType.company, Operation.update => updateCompany u s
  | ResourceType.company, Operation.delete => deleteCompany u s
  | ResourceType.department, Operation.create => createDepartment u s
  | ResourceType.department, Operation.read => getDepartment u s
  | ResourceType.department, Operation.update => updateDepartment u s
  | ResourceType.department, Operation.delete => deleteDepartment u s
  | ResourceType.user, Operation.create => createUser u s
  | ResourceType.user, Operation.read => getUser u s
  | ResourceType.user, Operation.update => updateUser u s
  | ResourceType.user, Operation.delete => deleteUser u s
  | ResourceType.assignedTask, Operation.create => createAssignedTask u s
  | ResourceType.assignedTask, Operation.read => getAssignedTask u s
  | ResourceType.assignedTask, Operation.update => updateAssignedTask u s
  | ResourceType.assignedTask, Operation.delete => deleteAssignedTask u s
  | ResourceType.projectTask, Operation.create => createProjectTask u s
  | ResourceType.projectTask, Operation.read => getProjectTask u s
  | ResourceType.projectTask, Operation.update => updateProjectTask u s
  | ResourceType.projectTask, Operation.delete => deleteProjectTask u s
  | ResourceType.routineTask, Operation.create => createRoutineTask u s
  | ResourceType.routineTask, Operation.read => getRoutineTask u s
  | ResourceType.routineTask, Operation.update => updateRoutineTask u s
  | ResourceType.routineTask, Operation.delete => deleteRoutineTask u s
  | ResourceType.taskActivity, Operation.create => createTaskActivity u s
  | ResourceType.taskActivity, Operation.read => getTaskActivity u s
  | ResourceType.taskActivity, Operation.update => updateTaskActivity u s
  | ResourceType.taskActivity, Operation.delete => deleteTaskActivity u s
  | ResourceType.notification, Operation.create =>
      Decision.deny Reason.NOTIFICATION_ACCESS_DENIED
  | ResourceType.notification, Operation.read => getNotification u s
  | ResourceType.notification, Operation.update => markNotificationAsRead u s
  | ResourceType.notification, Operation.delete => deleteNotification u s

/-- One request evaluation as the Express chain performs it: the configured
middleware runs first and a middleware error short-circuits; otherwise the
controller check decides.  An absent req.user is rejected by every
middleware before anything else. -/
def evaluate (user : Option Actor) (op : Operation) (rt : ResourceType)
    (s : Scope) : Decision :=
  match routeMiddleware user op rt s with
  | some r => Decision.deny r
  | none =>
    match user with
    | none => Decision.deny Reason.AUTHENTICATION_REQUIRED
    | some u => controllerCheck u op rt s

/-- Resource types whose Create handler dereferences a pre-existing
department named by the request body. -/
def requiresExistingDepartment : ResourceType → Bool
  | ResourceType.user => true
  | ResourceType.assignedTask => true
  | ResourceType.projectTask => true
  | ResourceType.routineTask => true
  | _ => false

/-- A scope is well formed for an operation when every scope field the
handler dereferences is present; a missing one is a caller contract
violation, not a policy outcome. -/
def wellFormedScope (op : Operation) (rt : ResourceType) (s : Scope) : Bool :=
  if op = Operation.create ∧ requiresExistingDepartment rt then s.departmentId.isSome
  else true

/-- An assigned-task document with the fields updateAssignedTask touches;
content fields are opaque to the update logic and modelled as numbers,
completedBy as the list of completing user ids. -/
structure AssignedTaskDoc where
  title : Nat
  description : Nat
  location : Nat
  dueDate : Nat
  priority : Nat
  status : Nat
  assignedTo : List Ident
  completedBy : List Ident
  department : Ident
  company : Ident
  createdBy : Ident
deriving DecidableEq

/-- The request body of updateAssignedTask; none models an absent (or
falsy) field, which the controller skips. -/
structure UpdateBody where
  title : Option Nat := none
  description : Option Nat := none
  location : Option Nat := none
  dueDate : Option Nat := none
  priority : Option Nat := none
  status : Option Nat := none
  assignedTo : Option (List Ident) := none
deriving DecidableEq

/-- The updateData construction of updateAssignedTask
(assignedTaskController.js) followed by findByIdAndUpdate: each supplied
field is written, completedBy is reset to the empty list exactly when
assignedTo is supplied, and every field absent from updateData keeps its
stored value. -/
def applyUpdateData (t : AssignedTaskDoc) (b : UpdateBody) : AssignedTaskDoc :=
  { t with
    title := b.title.getD t.title
    description := b.description.getD t.description
    location := b.location.getD t.location
    dueDate := b.dueDate.getD t.dueDate
    priority := b.priority.getD t.priority
    status := b.status.getD t.status
    assignedTo := b.assignedTo.getD t.assignedTo
    completedBy :=
      match b.assignedTo with
      | some _ => []
      | none => t.completedBy }

/-- One inbound request to the evaluation layer. -/
structure Request where
  user : Option Actor
  op : Operation
  rt : ResourceType
  s : Scope

/-- A sequence of requests processed one after the other; the server holds
no evaluation state between them, so the batch is just the pointwise
evaluation. -/
def runBatch (batch : List Request) : List Decision :=
  batch.map (fun r => evaluate r.user r.op r.rt r.s)

/-- The decision a batch produces for the request at a given position. -/
theorem runBatch_at (a b : List Request) (r : Request) :
    (runBatch (a ++ r :: b))[a.length]? = some (evaluate r.user r.op r.rt r.s) := by
  unfold runBatch
  rw [List.map_append, List.map_cons]
  rw [List.getElem?_append_right (by simp)]
  simp

/-- C3: a Create on the Notification resource is denied with
NOTIFICATION_ACCESS_DENIED for every actor role and every scope; end-user
notification creation is never an allowed outcome of the evaluation. -/
theorem c3_notification_create_denied (u : Actor) (s : Scope) :
    evaluate (some u) Operation.create ResourceType.notification s =
      Decision.deny Reason.NOTIFICATION_ACCESS_DENIED := by
  rcases u with ⟨role, ucid, udid, uuid⟩
  cases role <;>
    simp [evaluate, routeMiddleware, authorizeNotificationAccess, isSuperAdmin]

/-- C8: with no authenticated actor, every evaluation denies with
AUTHENTICATION_REQUIRED, whatever the operation, resource type and scope
(so no other reason and no allowed outcome is reachable), and the generic
authorizeRoles gate does the same. -/
theorem c8_authentication_required_first (op : Operation) (rt : ResourceType)
    (s : Scope) (allowedRoles : List Role) :
    evaluate none op rt s = Decision.deny Reason.AUTHENTICATION_REQUIRED ∧
    authorizeRoles allowedRoles none = some Reason.AUTHENTICATION_REQUIRED := by
  refine ⟨?_, rfl⟩
  cases rt <;> rfl

/-- C9: evaluation is deterministic and stateless: in any two batches of
requests, the decision produced at the position of one and the same request
is identical, independent of every other request processed before or after
it in either batch. -/
theorem c9_evaluation_deterministic (pre post pre2 post2 : List Request) (r : Request) :
    (runBatch (pre ++ r :: post))[pre.length]? = some (evaluate r.user r.op r.rt r.s) ∧
    (runBatch (pre ++ r :: post))[pre.length]? = (runBatch (pre2 ++ r :: post2))[pre2.length]? := by
  refine ⟨runBatch_at pre post r, ?_⟩
  rw [runBatch_at pre post r, runBatch_at pre2 post2 r]

/-- C1 counterexample: a SuperAdmin of company 1 reading an assigned task
of company 2 is denied, but with TASK_NOT_FOUND — the company-filtered
findOne finds no document — and not with COMPANY_ACCESS_DENIED as the claim
requires for every resource and operation. -/
theorem c1_reason_counterexample :
    evaluate (some ⟨Role.superAdmin, 1, 10, 100⟩) Operation.read ResourceType.assignedTask
      ⟨some 2, some 20, none, some []⟩ = Decision.deny Reason.TASK_NOT_FOUND ∧
    Decision.deny Reason.TASK_NOT_FOUND ≠ Decision.deny Reason.COMPANY_ACCESS_DENIED := by
  decide

/-- C1 (amended): when the target's companyId is present and differs from
the actor's, no role and no operation ever obtains an allowed decision on
any resource whose handler reads a pre-existing target (company creation
and department creation read none), but the denial reason varies:
COMPANY_ACCESS_DENIED on the company controller, NOT_FOUND codes where the
fetch is company-filtered, and resource-specific ACCESS_DENIED codes
elsewhere.  The two referential-integrity hypotheses record that a target
of another company can neither lie in the actor's department nor list the
actor among its assignees, which the write paths enforce. -/
theorem c1_cross_company_never_allowed (u : Actor) (op : Operation) (rt : ResourceType)
    (s : Scope) (c : Ident)
    (hc : s.companyId = some c) (hne : c ≠ u.companyId)
    (hdep : s.departmentId ≠ some u.departmentId)
    (hassign : u.userId ∉ s.assignedUserIds.getD [])
    (hexc : ¬ (op = Operation.create ∧
      (rt = ResourceType.company ∨ rt = ResourceType.department))) :
    evaluate (some u) op rt s ≠ Decision.allow := by
  rcases u with ⟨role, ucid, udid, uuid⟩
  cases role <;> cases rt <;> cases op <;>
    simp_all [evaluate, routeMiddleware, controllerCheck, authorizeCompanyAccess,
      authorizeDepartmentAccess, authorizeUserAccess, authorizeTaskAccess,
      authorizeTaskActivityAccess, authorizeNotificationAccess, isSuperAdmin,
      hasDepartmentAccess, getCompany, createCompany, updateCompany, deleteCompany,
      getDepartment, createDepartment, updateDepartment, deleteDepartment,
      getUser, createUser, updateUser, deleteUser, getAssignedTask,
      createAssignedTask, updateAssignedTask, deleteAssignedTask, getProjectTask,
      createProjectTask, updateProjectTask, deleteProjectTask, getRoutineTask,
      createRoutineTask, updateRoutineTask, deleteRoutineTask, getTaskActivity,
      createTaskActivity, updateTaskActivity, deleteTaskActivity, getNotification,
      markNotificationAsRead, deleteNotification] <;>
    split_ifs <;> simp_all

/-- C1 witness: an Admin of company 1 reading an assigned task of company 2
is not allowed. -/
theorem c1_cross_company_never_allowed_witness :
    evaluate (some ⟨Role.admin, 1, 10, 100⟩) Operation.read ResourceType.assignedTask
      ⟨some 2, some 20, none, some []⟩ ≠ Decision.allow :=
  c1_cross_company_never_allowed ⟨Role.admin, 1, 10, 100⟩ Operation.read
    ResourceType.assignedTask ⟨some 2, some 20, none, some []⟩ 2 rfl (by decide)
    (by decide) (by decide) (by decide)

/-- C2 counterexample: a SuperAdmin acting inside their own company is
denied a Create on the Notification resource with NOTIFICATION_ACCESS_DENIED,
so SuperAdmin is not allowed for every resource type and operation when the
company matches. -/
theorem c2_superadmin_denied_counterexample :
    evaluate (some ⟨Role.superAdmin, 1, 10, 100⟩) Operation.create ResourceType.notification
      ⟨some 1, none, some 100, none⟩ = Decision.deny Reason.NOTIFICATION_ACCESS_DENIED ∧
    evaluate (some ⟨Role.superAdmin, 1, 10, 100⟩) Operation.create ResourceType.notification
      ⟨some 1, none, some 100, none⟩ ≠ Decision.allow := by
  decide

/-- C2 (amended): a SuperAdmin whose companyId equals the target's is
allowed every operation on every resource type, with the single exception
of Create on Notification, which is denied for every role; the scope must
be well formed (a Create handler that dereferences a department needs one
named). -/
theorem c2_superadmin_allowed_in_company (u : Actor) (op : Operation) (rt : ResourceType)
    (s : Scope)
    (hrole : u.role = Role.superAdmin)
    (hc : s.companyId = some u.companyId)
    (hwf : wellFormedScope op rt s = true)
    (hexc : ¬ (rt = ResourceType.notification ∧ op = Operation.create)) :
    evaluate (some u) op rt s = Decision.allow := by
  rcases u with ⟨role, ucid, udid, uuid⟩
  subst hrole
  cases rt <;> cases op <;>
    simp_all [evaluate, routeMiddleware, controllerCheck, wellFormedScope,
      requiresExistingDepartment, authorizeCompanyAccess,
      authorizeDepartmentAccess, authorizeUserAccess, authorizeTaskAccess,
      authorizeTaskActivityAccess, authorizeNotificationAccess, isSuperAdmin,
      hasDepartmentAccess, getCompany, createCompany, updateCompany, deleteCompany,
      getDepartment, createDepartment, updateDepartment, deleteDepartment,
      getUser, createUser, updateUser, deleteUser, getAssignedTask,
      createAssignedTask, updateAssignedTask, deleteAssignedTask, getProjectTask,
      createProjectTask, updateProjectTask, deleteProjectTask, getRoutineTask,
      createRoutineTask, updateRoutineTask, deleteRoutineTask, getTaskActivity,
      createTaskActivity, updateTaskActivity, deleteTaskActivity, getNotification,
      markNotificationAsRead, deleteNotification]

/-- C2 witness: a SuperAdmin deleting a department of their own company is
allowed. -/
theorem c2_superadmin_allowed_in_company_witness :
    evaluate (some ⟨Role.superAdmin, 1, 10, 100⟩) Operation.delete ResourceType.department
      ⟨some 1, some 20, none, none⟩ = Decision.allow :=
  c2_superadmin_allowed_in_company ⟨Role.superAdmin, 1, 10, 100⟩ Operation.delete
    ResourceType.department ⟨some 1, some 20, none, none⟩ rfl rfl (by decide) (by decide)

/-- C4: a User reading an assigned task of their own company is allowed
exactly when their id appears in the assignedTo list; the department of the
task is not consulted (the scope's departmentId is universally quantified
and absent from the condition), and a User not in the list is denied. -/
theorem c4_user_read_self_assigned (u : Actor) (s : Scope)
    (hrole : u.role = Role.user) (hc : s.companyId = some u.companyId) :
    evaluate (some u) Operation.read ResourceType.assignedTask s =
      if u.userId ∈ s.assignedUserIds.getD [] then Decision.allow
      else Decision.deny Reason.TASK_ACCESS_DENIED := by
  rcases u with ⟨role, ucid, udid, uuid⟩
  subst hrole
  by_cases hmem : uuid ∈ s.assignedUserIds.getD [] <;>
    simp [evaluate, routeMiddleware, controllerCheck, authorizeTaskAccess,
      getAssignedTask, isSuperAdmin, hasDepartmentAccess, hc, hmem]

/-- C4 witness: the spec scenario with a User assigned to the task but with
a department different from the task's is allowed. -/
theorem c4_user_read_self_assigned_witness :
    evaluate (some ⟨Role.user, 1, 10, 100⟩) Operation.read ResourceType.assignedTask
      ⟨some 1, some 99, none, some [100, 101]⟩ = Decision.allow := by
  have h := c4_user_read_self_assigned ⟨Role.user, 1, 10, 100⟩
    ⟨some 1, some 99, none, some [100, 101]⟩ rfl rfl
  simpa using h

/-- C5: an Admin or Manager acting on an assigned task of their own company
is allowed to Read, Update or Delete it exactly when the task's department
is their own department, and otherwise denied with TASK_ACCESS_DENIED. -/
theorem c5_dept_scope_assigned_task (u : Actor) (op : Operation) (s : Scope)
    (hrole : u.role = Role.admin ∨ u.role = Role.manager)
    (hc : s.companyId = some u.companyId)
    (hop : op = Operation.read ∨ op = Operation.update ∨ op = Operation.delete) :
    evaluate (some u) op ResourceType.assignedTask s =
      if s.departmentId = some u.departmentId then Decision.allow
      else Decision.deny Reason.TASK_ACCESS_DENIED := by
  rcases u with ⟨role, ucid, udid, uuid⟩
  by_cases hdep : s.departmentId = some udid <;>
    rcases hrole with h | h <;> subst h <;>
    rcases hop with h | h | h <;> subst h <;>
    simp [evaluate, routeMiddleware, controllerCheck, authorizeTaskAccess,
      getAssignedTask, updateAssignedTask, deleteAssignedTask,
      isSuperAdmin, hasDepartmentAccess, hc, hdep]

/-- C5 witness: the spec scenario of a Manager of department 10 reading an
assigned task of department 20 in the same company is denied with
TASK_ACCESS_DENIED. -/
theorem c5_dept_scope_assigned_task_witness :
    evaluate (some ⟨Role.manager, 1, 10, 100⟩) Operation.read ResourceType.assignedTask
      ⟨some 1, some 20, none, none⟩ = Decision.deny Reason.TASK_ACCESS_DENIED := by
  have h := c5_dept_scope_assigned_task ⟨Role.manager, 1, 10, 100⟩ Operation.read
    ⟨some 1, some 20, none, none⟩ (Or.inr rfl) rfl (Or.inl rfl)
  simpa using h

/-- C6: a User is denied every operation on a project task, for every
scope; the task-access middleware rejects each of the four operations with
TASK_ACCESS_DENIED before any scope field is consulted. -/
theorem c6_user_forbidden_project_task (u : Actor) (op : Operation) (s : Scope)
    (hrole : u.role = Role.user) :
    evaluate (some u) op ResourceType.projectTask s =
      Decision.deny Reason.TASK_ACCESS_DENIED := by
  rcases u with ⟨role, ucid, udid, uuid⟩
  subst hrole
  cases op <;>
    simp [evaluate, routeMiddleware, authorizeTaskAccess, isSuperAdmin,
      hasDepartmentAccess]

/-- C6 witness: a User reading a project task of their own company and
department is still denied. -/
theorem c6_user_forbidden_project_task_witness :
    evaluate (some ⟨Role.user, 1, 10, 100⟩) Operation.read ResourceType.projectTask
      ⟨some 1, some 10, none, none⟩ = Decision.deny Reason.TASK_ACCESS_DENIED :=
  c6_user_forbidden_project_task ⟨Role.user, 1, 10, 100⟩ Operation.read
    ⟨some 1, some 10, none, none⟩ rfl

/-- C7: for every non-SuperAdmin role (User, Admin and Manager alike), an
Update on the User resource in the actor's own company is allowed exactly
when the target is the actor themself, and denied with USER_ACCESS_DENIED
for every other target. -/
theorem c7_update_user_self_only (u : Actor) (s : Scope)
    (hrole : u.role ≠ Role.superAdmin)
    (hc : s.companyId = some u.companyId) :
    evaluate (some u) Operation.update ResourceType.user s =
      if s.ownerId = some u.userId then Decision.allow
      else Decision.deny Reason.USER_ACCESS_DENIED := by
  rcases u with ⟨role, ucid, udid, uuid⟩
  by_cases hown : s.ownerId = some uuid <;>
    cases role <;> simp_all [evaluate, routeMiddleware, controllerCheck,
      authorizeUserAccess, updateUser, isSuperAdmin, hasDepartmentAccess]

/-- C7 witness: a User updating their own profile is allowed. -/
theorem c7_update_user_self_only_witness :
    evaluate (some ⟨Role.user, 1, 10, 100⟩) Operation.update ResourceType.user
      ⟨some 1, some 10, some 100, none⟩ = Decision.allow := by
  have h := c7_update_user_self_only ⟨Role.user, 1, 10, 100⟩
    ⟨some 1, some 10, some 100, none⟩ (by decide) rfl
  simpa using h

/-- C10: for the update applied by updateAssignedTask, supplying an
assignedTo list resets completedBy to the empty list and stores the list;
when assignedTo is absent, completedBy and assignedTo are unchanged; every
field the body does not supply keeps its stored value, and the fields no
body can name (department, company, createdBy) are always unchanged. -/
theorem c10_update_resets_completed_by (t : AssignedTaskDoc) (b : UpdateBody) :
    (∀ l, b.assignedTo = some l →
      (applyUpdateData t b).completedBy = [] ∧ (applyUpdateData t b).assignedTo = l) ∧
    (b.assignedTo = none →
      (applyUpdateData t b).completedBy = t.completedBy ∧
      (applyUpdateData t b).assignedTo = t.assignedTo) ∧
    (b.title = none → (applyUpdateData t b).title = t.title) ∧
    (b.description = none → (applyUpdateData t b).description = t.description) ∧
    (b.location = none → (applyUpdateData t b).location = t.location) ∧
    (b.dueDate = none → (applyUpdateData t b).dueDate = t.dueDate) ∧
    (b.priority = none → (applyUpdateData t b).priority = t.priority) ∧
    (b.status = none → (applyUpdateData t b).status = t.status) ∧
    (applyUpdateData t b).department = t.department ∧
    (applyUpdateData t b).company = t.company ∧
    (applyUpdateData t b).createdBy = t.createdBy := by
  refine ⟨?_, ?_, ?_, ?_, ?_, ?_, ?_, ?_, rfl, rfl, rfl⟩ <;>
    first
    | (intro l h
       simp [applyUpdateData, h])
    | (intro h
       simp [applyUpdateData, h])

/-- C10 witness: updating a concrete task with a body that supplies only a
new assignedTo list clears completedBy and keeps the untouched fields. -/
theorem c10_update_resets_completed_by_witness :
    (applyUpdateData ⟨1, 2, 3, 4, 5, 6, [7], [8], 9, 10, 11⟩
      ⟨none, none, none, none, none, none, some [5]⟩).completedBy = [] :=
  ((c10_update_resets_completed_by ⟨1, 2, 3, 4, 5, 6, [7], [8], 9, 10, 11⟩
    ⟨none, none, none, none, none, none, some [5]⟩).1 [5] rfl).1

end TaskManager
